import Mathlib

set_option linter.unusedVariables false

/-!
Verification development for the `universal-battery-database` repository.

The repository contains a physics-informed neural degradation model in two
variants (`src/neware_parser/DegradationModel.py` and
`src/machine_learning/DegradationModelBlackbox.py`) together with a Django
migration (`src/cell_database/migrations/0002_auto_20200610_1318.py`).

Tensors are shallowly embedded as lists of rows of rationals: axis 0 is the
batch axis and the remaining axes are flattened into the row.  The opaque
numeric components of the network (feedforward nets built by
`feedforward_nn_parameters`, the convolutional stress encoder, `tf.nn.elu`,
`tf.exp`, and the gradient-tape jacobians) are modelled as unconstrained
function fields of the model structures: every claim below is about the
data flow, the incentive-loss algebra and the dictionary structure of the
code, none depends on the numeric values those components produce.
-/

namespace UBD

/-- Rank-1 tensor: a row of rationals. -/
abbrev Vec := List ℚ

/-- Tensor with an explicit batch axis; the remaining axes are flattened
into the rows. -/
abbrev Mat := List (List ℚ)

/-- Elementwise `tf.nn.relu`. -/
def relu (x : ℚ) : ℚ := max x 0

/-- Mean of a row (`tf.reduce_mean` on a vector); mean of the empty row is
taken to be `0`. -/
def vmean (v : Vec) : ℚ := v.sum / v.length

/-- Elementwise map over a tensor. -/
def matMap (f : ℚ → ℚ) (A : Mat) : Mat := A.map (List.map f)

/-- Elementwise combination of two tensors of the same shape. -/
def matZipWith (f : ℚ → ℚ → ℚ) (A B : Mat) : Mat :=
  List.zipWith (List.zipWith f) A B

/-- `tf.reduce_mean` over all entries of a tensor. -/
def matMean (A : Mat) : ℚ := vmean A.flatten

/-- Multiplication of a tensor by a scalar. -/
def matScale (c : ℚ) (A : Mat) : Mat := matMap (fun x => c * x) A

/-- Elementwise sum of two tensors. -/
def matAdd (A B : Mat) : Mat := matZipWith (fun a b => a + b) A B

/-- Elementwise difference of two tensors. -/
def matSub (A B : Mat) : Mat := matZipWith (fun a b => a - b) A B

/-- Broadcast of a scalar against the shape of a tensor (`tf` broadcasting
of a python float against a tensor). -/
def scalarLike (c : ℚ) (A : Mat) : Mat := matMap (fun _ => c) A

/-- Entry of a tensor at batch index `i`, flattened position `j`
(out-of-bounds reads default to `0`; the claims always come with bounds). -/
def entry (A : Mat) (i j : ℕ) : ℚ := (A.getD i []).getD j 0

/-- Broadcast multiplication of a `[batch, 1]` tensor against a
`[batch, k]` tensor, `tf` semantics of `latent * features`. -/
def rowScale (L A : Mat) : Mat :=
  List.zipWith (fun l row => row.map (fun x => l.headD 0 * x)) L A

/-- Gather of rows (`tf.gather(kernel, indices, axis=0)`), unchecked. -/
def gatherRows (A : Mat) (idx : List ℕ) : Mat := idx.map (fun i => A.getD i [])

/-- Gather of rows with the bounds check `tf.gather` performs: the error
branch of the lookup is the `none` result. -/
def gatherChecked (A : Mat) (idx : List ℕ) : Option Mat :=
  if idx.all (fun i => i < A.length) then some (gatherRows A idx) else none

/-- Reduce-mean over axis 1 with `keepdims=True`: every row collapses to
its mean. -/
def rowMeanKeep (A : Mat) : Mat := A.map (fun r => [vmean r])

/-- Reduce-mean over all non-batch axes (`tf.reduce_mean(_, axis=[1,2])`). -/
def rowMean (A : Mat) : Vec := A.map vmean

/-- Concatenation of tensors along axis 1 (`tf.concat(deps, axis=1)`). -/
def concatAx1 (ds : List Mat) : Mat :=
  match ds with
  | [] => []
  | d :: rest => rest.foldl (fun acc m => List.zipWith (fun a b => a ++ b) acc m) d

/-- Rows of length `k` taken from a flat list: the helper behind
`tf.reshape(x, [-1, k])`. -/
def chunkRows (k : ℕ) (v : Vec) : Mat :=
  (List.range (v.length / k)).map (fun i => ((v.drop (i * k)).take k))

/-- `tf.reshape(x, [-1, k])`: flatten, then cut into rows of length `k`. -/
def reshapeNeg1 (k : ℕ) (A : Mat) : Mat := chunkRows k A.flatten

/-- Total number of entries of a tensor. -/
def matSize (A : Mat) : ℕ := (A.map List.length).sum

/-! Incentive functions, from `src/neware_parser/DegradationModel.py`
(lines 73-195).  The module `machine_learning/incentives.py` is not under
`src/`; the blackbox model imports functions of the same names and is
modelled with these definitions. -/

/-- Enum `Inequality` of `DegradationModel.py`. -/
inductive Inequality
  | LessThan
  | GreaterThan
  | Equals
deriving DecidableEq

/-- Enum `Level` of `DegradationModel.py`. -/
inductive Level
  | Strong
  | Proportional
deriving DecidableEq

/-- Enum `Target` of `DegradationModel.py`. -/
inductive Target
  | Small
  | Big
deriving DecidableEq

/-- Function `incentive_inequality(A, symbol, B, level)` of
`DegradationModel.py`.  The python raises on an unknown symbol or level;
the Lean enums are exhaustive, so no error branch remains. -/
def incentive_inequality (A : Mat) (symbol : Inequality) (B : Mat)
    (level : Level) : Mat :=
  let intermediate : Mat :=
    match symbol with
    | .LessThan => matZipWith (fun a b => relu (a - b)) A B
    | .GreaterThan => matZipWith (fun a b => relu (b - a)) A B
    | .Equals => matZipWith (fun a b => |a - b|) A B
  match level with
  | .Strong => intermediate
  | .Proportional => matMap (fun x => x ^ 2) intermediate

/-- Function `incentive_magnitude(A, target, level)` of
`DegradationModel.py`. -/
def incentive_magnitude (A : Mat) (target : Target) (level : Level) : Mat :=
  let A_prime := matMap (fun a => |a|) A
  let multiplier : ℚ :=
    match target with
    | .Small => 1
    | .Big => -1
  let A_prime' :=
    match level with
    | .Strong => A_prime
    | .Proportional => matMap (fun x => x ^ 2) A_prime
  matMap (fun x => multiplier * x) A_prime'

/-- Function `incentive_combine(As)` of `DegradationModel.py`:
`sum([a[0] * tf.reduce_mean(a[1]) for a in As])`. -/
def incentive_combine (As : List (ℚ × Mat)) : ℚ :=
  (As.map (fun a => a.1 * matMean a.2)).sum

end UBD

namespace UBD

/-! Helper lemmas about the tensor embedding. -/

theorem getD_zipWith {α β γ : Type} (g : α → β → γ) (dA : α) (dB : β) (dC : γ) :
    ∀ (A : List α) (B : List β) (i : ℕ), i < A.length → i < B.length →
      (List.zipWith g A B).getD i dC = g (A.getD i dA) (B.getD i dB) := by
  intro A
  induction A with
  | nil => intro B i h _; simp at h
  | cons a A ih =>
    intro B i hA hB
    cases B with
    | nil => simp at hB
    | cons b B =>
      cases i with
      | zero => simp [List.getD]
      | succ n =>
        simp only [List.zipWith_cons_cons, List.getD_cons_succ]
        exact ih B n (by simpa using hA) (by simpa using hB)

theorem entry_matZipWith (f : ℚ → ℚ → ℚ) (A B : Mat) (i j : ℕ)
    (hiA : i < A.length) (hiB : i < B.length)
    (hjA : j < (A.getD i []).length) (hjB : j < (B.getD i []).length) :
    entry (matZipWith f A B) i j = f (entry A i j) (entry B i j) := by
  unfold entry matZipWith
  rw [getD_zipWith (List.zipWith f) [] [] [] A B i hiA hiB]
  rw [getD_zipWith f 0 0 0 _ _ j hjA hjB]

theorem matMap_matMap (f g : ℚ → ℚ) (A : Mat) :
    matMap g (matMap f A) = matMap (fun x => g (f x)) A := by
  simp [matMap, List.map_map, Function.comp_def]

theorem matMap_congr (f g : ℚ → ℚ) (h : ∀ x, f x = g x) (A : Mat) :
    matMap f A = matMap g A := by
  have : f = g := funext h
  rw [this]

theorem mem_matMap (f : ℚ → ℚ) (A : Mat) (x : ℚ)
    (hx : ∃ r ∈ matMap f A, x ∈ r) : ∃ y, x = f y := by
  obtain ⟨r, hr, hxr⟩ := hx
  simp only [matMap, List.mem_map] at hr
  obtain ⟨r0, _, rfl⟩ := hr
  simp only [List.mem_map] at hxr
  obtain ⟨y, _, rfl⟩ := hxr
  exact ⟨y, rfl⟩

end UBD

namespace UBD.NewareParser

/-! Embedding of `PrimitiveDictionaryLayer` of
`src/neware_parser/DegradationModel.py` (lines 2202-2244). -/

/-- The layer state: `num_features`, `num_keys`, `id_dict`, the `kernel`
weight of shape `[num_keys, num_features]`, and `sample_epsilon`. -/
structure PrimitiveDictionaryLayer where
  num_features : ℕ
  num_keys : ℕ
  id_dict : List (ℕ × ℕ)
  kernel : Mat
  sample_epsilon : ℚ
deriving DecidableEq

/-- `max(id_dict.values())`.  Python `max` raises on an empty sequence, so
statements about it carry a nonemptiness hypothesis. -/
def maxValues (id_dict : List (ℕ × ℕ)) : ℕ :=
  (id_dict.map Prod.snd).foldr max 0

/-- `PrimitiveDictionaryLayer.__init__(num_features, id_dict)`: sets
`num_keys = 1 + max(id_dict.values())` and allocates the kernel with
`num_keys` rows; `w` supplies the arbitrary initial weight values of
`add_weight`. -/
def mkPrimitiveDictionaryLayer (num_features : ℕ) (id_dict : List (ℕ × ℕ))
    (w : ℕ → ℕ → ℚ) : PrimitiveDictionaryLayer :=
  let num_keys := 1 + maxValues id_dict
  { num_features := num_features
    num_keys := num_keys
    id_dict := id_dict
    kernel := (List.range num_keys).map (fun i => (List.range num_features).map (w i))
    sample_epsilon := 1 / 20 }

/-- `PrimitiveDictionaryLayer.call(input, training, sample)`: gathers
kernel rows, in training mode attaches the magnitude loss
`.1 * incentive_magnitude(...)` reduced over axis 1, and in sample mode
evaluates `fetched_features + self.sample_epsilon * eps` and discards the
result (the python statement has no assignment). -/
def PrimitiveDictionaryLayer.call (layer : PrimitiveDictionaryLayer)
    (input : List ℕ) (training sample : Bool) (eps : Mat) : Mat × Option Mat :=
  let fetched_features := gatherRows layer.kernel input
  let features_loss : Option Mat :=
    if training then
      some (rowMeanKeep
        (matScale (1 / 10) (incentive_magnitude fetched_features .Small .Proportional)))
    else none
  let _discarded :=
    if sample then matAdd fetched_features (matScale layer.sample_epsilon eps)
    else fetched_features
  (fetched_features, features_loss)

end UBD.NewareParser

namespace UBD

/-- Gather of rows of an integer matrix (`tf.gather` on the pointer
tables). -/
def gatherRowsN (A : List (List ℕ)) (idx : List ℕ) : List (List ℕ) :=
  idx.map (fun i => A.getD i [])

/-- View of a `[b*M, F]` tensor as `[b, M, F]`
(`tf.reshape(x, [-1, M, F])`). -/
def group (M : ℕ) (A : Mat) : List Mat :=
  (List.range (A.length / M)).map (fun i => (A.drop (i * M)).take M)

/-- Sum of a list of rows (`tf.reduce_sum(_, axis=1)` on a `[b, M, F]`
tensor, applied per batch element). -/
def sumRows (rows : Mat) : Vec :=
  match rows with
  | [] => []
  | r :: rest => rest.foldl (fun acc r2 => List.zipWith (fun a b => a + b) acc r2) r

/-- `nn_call(nn_func, dependencies, training)` of
`src/neware_parser/DegradationModel.py` (lines 60-67): the dependencies
are concatenated along axis 1 and fed to the network; the network itself
(`initial`/`bulk`/`final` dense layers with opaque weights) is the
function `f`. -/
def nn_call (f : Mat → Bool → Mat) (dependencies : List Mat) (training : Bool) : Mat :=
  f (concatAx1 dependencies) training

end UBD

namespace UBD.NewareParser

/-- A python `params` dictionary of named tensors. -/
abbrev AList := List (String × Mat)

/-- Read of `params[k]`. -/
def lookupMat (l : AList) (k : String) : Mat :=
  ((l.find? (fun p => p.1 == k)).map Prod.snd).getD []

/-- The `params` dictionary built by `DegradationModel.call`
(lines 1529-1548), passed to the capacity/voltage pipelines;
`cc_capacity` is added only in the training branch (line 1557). -/
structure CParams where
  batch_count : ℕ
  voltage_count : ℕ
  current_count : ℕ
  voltage : Mat
  cv_current : Mat
  cycle : Mat
  constant_current : Mat
  end_current_prev : Mat
  end_voltage_prev : Mat
  features : Mat
  end_voltage : Mat
  svit_grid : Mat
  count_matrix : Mat
  cc_capacity : Option Mat

/-- The input list `x` of `DegradationModel.call` (`x[0]` .. `x[10]`). -/
structure CallInput where
  cycle : Mat
  constant_current : Mat
  end_current_prev : Mat
  end_voltage_prev : Mat
  end_voltage : Mat
  indecies : List ℕ
  voltage_tensor : Mat
  current_tensor : Mat
  svit_grid : Mat
  count_matrix : Mat
  cc_capacity_measured : Mat

/-- The random draws of the training branch of `call` (lines 1560-1620):
the `tf.random.uniform` samples, the random index draws, and the gaussian
`eps` of the sample branches. -/
structure TrainingDraws where
  sampled_voltages : Mat
  sampled_Qs : Mat
  sampled_cycles : Mat
  sampled_constant_current : Mat
  cell_indecies : List ℕ
  sampled_shift : Mat
  svit_indecies : List ℕ
  count_indecies : List ℕ
  eps : Mat

/-- The tuple returned by `z_cell_from_indecies`. -/
structure ZCellOut where
  features_cell : Mat
  loss : ℚ
  features_pos : Mat
  features_neg : Mat
  fetched_latent_cell : Mat

/-- A value of the dictionary returned by `call`. -/
inductive NVal
  | mat (m : Mat)
  | scalar (q : ℚ)

/-- The `params` dictionaries of `reciprocal_Q` (keys `Q`, `features`,
`shift`). -/
structure ReciprocalQParams where
  Q : Mat
  features : Mat
  shift : Mat

/-- The `params` dictionaries of `reciprocal_V` (keys `voltage`,
`features`, `shift`). -/
structure ReciprocalVParams where
  voltage : Mat
  features : Mat
  shift : Mat

/-- The `DegradationModel` of `src/neware_parser/DegradationModel.py`.
The dictionary layers, latent flags, pointer and weight tables are
concrete; the feedforward networks built by `feedforward_nn_parameters`,
the convolutional `StressToEncodedLayer`, the pointwise transcendental
functions `tf.nn.elu` and `tf.exp`, the gradient-tape jacobians, and the
capacity/voltage pipelines consumed by `call` are unconstrained function
fields (no settled claim depends on their numeric values). -/
structure DegradationModel where
  cell_direct : PrimitiveDictionaryLayer
  pos_direct : PrimitiveDictionaryLayer
  neg_direct : PrimitiveDictionaryLayer
  electrolyte_direct : PrimitiveDictionaryLayer
  molecule_direct : PrimitiveDictionaryLayer
  cell_latent_flags : Mat
  cell_pointers : List (List ℕ)
  electrolyte_latent_flags : Mat
  electrolyte_pointers : List (List ℕ)
  electrolyte_weights : Mat
  n_solvent_max : ℕ
  n_salt_max : ℕ
  n_additive_max : ℕ
  num_features : ℕ
  cell_indirect : Mat → Bool → Mat
  electrolyte_indirect : Mat → Bool → Mat
  nn_pos_projection : Mat → Bool → Mat
  nn_neg_projection : Mat → Bool → Mat
  nn_V_plus : Mat → Bool → Mat
  nn_V_minus : Mat → Bool → Mat
  nn_Q : Mat → Bool → Mat
  nn_strain : Mat → Bool → Mat
  nn_Q_scale_strainless : Mat → Bool → Mat
  nn_shift_strainless : Mat → Bool → Mat
  nn_R_strainless : Mat → Bool → Mat
  nn_Q_scale : Mat → Bool → Mat
  nn_shift : Mat → Bool → Mat
  nn_R : Mat → Bool → Mat
  elu : ℚ → ℚ
  exp : ℚ → ℚ
  batch_jacobian : Mat → Mat → Mat
  stress_to_encoded_layer : Mat → Mat → Mat
  cc_capacity : CParams → Bool → Mat
  cv_capacity : CParams → Bool → Mat
  cc_voltage : CParams → Bool → Mat
  Q_scale_for_derivative : AList → Mat
  shift_for_derivative : AList → Mat
  r_for_derivative : AList → Mat
  create_der : String → AList → String → Mat

/-- `norm_constant_direct`: `features[:, 0:1]`. -/
def DegradationModel.norm_constant_direct (m : DegradationModel)
    (features : Mat) (training : Bool) : Mat :=
  features.map (List.take 1)

/-- `cell_features_direct`: `features[:, 1:]`. -/
def DegradationModel.cell_features_direct (m : DegradationModel)
    (features : Mat) (training : Bool) : Mat :=
  features.map (List.drop 1)

/-- `norm_cycle_direct`: `cycle * (1e-10 + tf.exp(-norm_constant))`. -/
def DegradationModel.norm_cycle_direct (m : DegradationModel)
    (cycle norm_constant : Mat) (training : Bool) : Mat :=
  matZipWith (fun c n => c * (1e-10 + m.exp (-n))) cycle norm_constant

/-- `stress_to_encoded_direct`: application of the convolutional
`StressToEncodedLayer` (modelled by the `stress_to_encoded_layer`
field). -/
def DegradationModel.stress_to_encoded_direct (m : DegradationModel)
    (svit_grid count_matrix : Mat) (training : Bool) : Mat :=
  m.stress_to_encoded_layer svit_grid count_matrix

/-- `stress_to_strain_direct`: `nn_call(self.nn_strain, (norm_cycle,
cell_features, encoded_stress))` (called with the default
`training=True`). -/
def DegradationModel.stress_to_strain_direct (m : DegradationModel)
    (norm_cycle cell_features encoded_stress : Mat) (training : Bool) : Mat :=
  nn_call m.nn_strain [norm_cycle, cell_features, encoded_stress] true

/-- `pos_projection_direct`. -/
def DegradationModel.pos_projection_direct (m : DegradationModel)
    (cell_features : Mat) (training : Bool) : Mat :=
  nn_call m.nn_pos_projection [cell_features] training

/-- `neg_projection_direct`. -/
def DegradationModel.neg_projection_direct (m : DegradationModel)
    (cell_features : Mat) (training : Bool) : Mat :=
  nn_call m.nn_neg_projection [cell_features] training

/-- `V_plus_direct(Q, cell_features)`. -/
def DegradationModel.V_plus_direct (m : DegradationModel)
    (Q cell_features : Mat) (training : Bool) : Mat :=
  nn_call m.nn_V_plus [Q, m.pos_projection_direct cell_features training] training

/-- `V_minus_direct(Q, cell_features)`. -/
def DegradationModel.V_minus_direct (m : DegradationModel)
    (Q cell_features : Mat) (training : Bool) : Mat :=
  nn_call m.nn_V_minus [Q, m.neg_projection_direct cell_features training] training

/-- `V_direct(Q, shift, cell_features)`:
`V_plus(Q) - V_minus(Q - shift)`. -/
def DegradationModel.V_direct (m : DegradationModel)
    (Q shift cell_features : Mat) (training : Bool) : Mat :=
  matSub (m.V_plus_direct Q cell_features training)
    (m.V_minus_direct (matSub Q shift) cell_features training)

/-- `Q_direct(voltage, shift, cell_features)`:
`tf.nn.elu(nn_call(self.nn_Q, (voltage, shift, cell_features)))`. -/
def DegradationModel.Q_direct (m : DegradationModel)
    (voltage shift cell_features : Mat) (training : Bool) : Mat :=
  matMap m.elu (nn_call m.nn_Q [voltage, shift, cell_features] training)

/-- `Q_scale_strainless_direct`. -/
def DegradationModel.Q_scale_strainless_direct (m : DegradationModel)
    (cell_features : Mat) (training : Bool) : Mat :=
  matMap m.elu (nn_call m.nn_Q_scale_strainless [cell_features] training)

/-- `shift_strainless_direct(current, cell_features)`. -/
def DegradationModel.shift_strainless_direct (m : DegradationModel)
    (current cell_features : Mat) (training : Bool) : Mat :=
  nn_call m.nn_shift_strainless [matMap (fun x => |x|) current, cell_features] training

/-- `R_strainless_direct`. -/
def DegradationModel.R_strainless_direct (m : DegradationModel)
    (cell_features : Mat) (training : Bool) : Mat :=
  matMap m.elu (nn_call m.nn_R_strainless [cell_features] training)

/-- `Q_scale_direct(strain, current, Q_scale_strainless)`; the current
dependency is commented out in the source. -/
def DegradationModel.Q_scale_direct (m : DegradationModel)
    (strain current Q_scale_strainless : Mat) (training : Bool) : Mat :=
  matMap m.elu (nn_call m.nn_Q_scale [strain, Q_scale_strainless] training)

/-- `shift_direct(strain, current, shift_strainless)`. -/
def DegradationModel.shift_direct (m : DegradationModel)
    (strain current shift_strainless : Mat) (training : Bool) : Mat :=
  nn_call m.nn_shift [strain, matMap (fun x => |x|) current, shift_strainless] training

/-- `R_direct(strain, R_strainless)`. -/
def DegradationModel.R_direct (m : DegradationModel)
    (strain R_strainless : Mat) (training : Bool) : Mat :=
  matMap m.elu (nn_call m.nn_R [strain, R_strainless] training)

/-- `reciprocal_Q(params)` (lines 1047-1050): the round trip
`Q_direct(V_direct(Q, shift, cf), shift, cf)` with
`cf = cell_features_direct(features)`. -/
def DegradationModel.reciprocal_Q (m : DegradationModel)
    (params : ReciprocalQParams) (training : Bool) : Mat :=
  let cell_features := m.cell_features_direct params.features training
  let V := m.V_direct params.Q params.shift cell_features training
  m.Q_direct V params.shift cell_features training

/-- `reciprocal_V(params)` (lines 1051-1054): the round trip
`V_direct(Q_direct(voltage, shift, cf), shift, cf)` with
`cf = cell_features_direct(features)`. -/
def DegradationModel.reciprocal_V (m : DegradationModel)
    (params : ReciprocalVParams) (training : Bool) : Mat :=
  let cell_features := m.cell_features_direct params.features training
  let Q := m.Q_direct params.voltage params.shift cell_features training
  m.V_direct Q params.shift cell_features training

/-- `V_plus_for_derivative(params)`, as invoked by `create_derivatives`
(default `training=True`). -/
def DegradationModel.V_plus_for_derivative (m : DegradationModel)
    (params : AList) : Mat :=
  m.V_plus_direct (lookupMat params "Q")
    (m.cell_features_direct (lookupMat params "features") true) true

/-- `V_minus_for_derivative(params)`. -/
def DegradationModel.V_minus_for_derivative (m : DegradationModel)
    (params : AList) : Mat :=
  m.V_minus_direct (lookupMat params "Q")
    (m.cell_features_direct (lookupMat params "features") true) true

/-- `Q_for_derivative(params)`. -/
def DegradationModel.Q_for_derivative (m : DegradationModel)
    (params : AList) : Mat :=
  m.Q_direct (lookupMat params "voltage") (lookupMat params "shift")
    (m.cell_features_direct (lookupMat params "features") true) true

/-- `create_derivatives(nn, params, der_params)` (lines 1406-1477): the
value is `tf.reshape(nn(params), [-1, 1])`; the derivative dictionary is
produced by nested gradient tapes and is modelled by the jacobian oracle
field `create_der`, labelled by the call site. -/
def DegradationModel.create_derivatives (m : DegradationModel)
    (site : String) (nn : AList → Mat) (params : AList) :
    Mat × (String → Mat) :=
  (reshapeNeg1 1 (nn params), m.create_der site params)

/-- `z_cell_from_indecies(indecies, training, sample,
compute_derivatives)` (lines 393-761).  `eps` is the gaussian draw of the
sample branches; every sample branch in this file evaluates
`features + sample_epsilon * eps` without assigning it, so the draw is
discarded. -/
def DegradationModel.z_cell_from_indecies (m : DegradationModel)
    (indecies : List ℕ) (training sample compute_derivatives : Bool)
    (eps : Mat) : ZCellOut :=
  let features_cell_direct := (m.cell_direct.call indecies training false eps).1
  let fetched_latent_cell := gatherRows m.cell_latent_flags indecies
  let fetched_pointers_cell := gatherRowsN m.cell_pointers indecies
  let pos_indecies := fetched_pointers_cell.map (fun r => r.getD 0 0)
  let neg_indecies := fetched_pointers_cell.map (fun r => r.getD 1 0)
  let electrolyte_indecies := fetched_pointers_cell.map (fun r => r.getD 2 0)
  let pos_out := m.pos_direct.call pos_indecies training sample eps
  let features_pos := pos_out.1
  let loss_pos := pos_out.2.getD []
  let neg_out := m.neg_direct.call neg_indecies training sample eps
  let features_neg := neg_out.1
  let loss_neg := neg_out.2.getD []
  let electrolyte_out := m.electrolyte_direct.call electrolyte_indecies training sample eps
  let features_electrolyte_direct := electrolyte_out.1
  let fetched_latent_electrolyte :=
    gatherRows m.electrolyte_latent_flags electrolyte_indecies
  let fetched_pointers_electrolyte :=
    gatherRowsN m.electrolyte_pointers electrolyte_indecies
  let fetched_weights_electrolyte :=
    gatherRows m.electrolyte_weights electrolyte_indecies
  let fetched_pointers_electrolyte_reshaped := fetched_pointers_electrolyte.flatten
  let molecule_out :=
    m.molecule_direct.call fetched_pointers_electrolyte_reshaped training sample eps
  let features_molecule := molecule_out.1
  let loss_molecule := molecule_out.2.getD []
  let M := m.n_solvent_max + m.n_salt_max + m.n_additive_max
  let features_molecule_reshaped := group M features_molecule
  let loss_molecule_reshaped := group M loss_molecule
  let fetched_molecule_weights :=
    List.zipWith
      (fun (wrow : Vec) (fm : Mat) =>
        List.zipWith (fun w fv => fv.map (fun x => w * x)) wrow fm)
      fetched_weights_electrolyte features_molecule_reshaped
  let total_solvent : Vec :=
    fetched_weights_electrolyte.map
      (fun r => 1 / (1e-10 + (r.take m.n_solvent_max).sum))
  let features_solvent :=
    List.zipWith (fun t fm => (sumRows (fm.take m.n_solvent_max)).map (fun x => t * x))
      total_solvent fetched_molecule_weights
  let features_salt :=
    fetched_molecule_weights.map
      (fun fm => sumRows ((fm.drop m.n_solvent_max).take m.n_salt_max))
  let features_additive :=
    fetched_molecule_weights.map
      (fun fm => sumRows ((fm.drop (m.n_solvent_max + m.n_salt_max)).take m.n_additive_max))
  let fetched_molecule_loss_weights :=
    List.zipWith
      (fun (wrow : Vec) (lm : Mat) =>
        List.zipWith (fun w lv => lv.map (fun x => w * x)) wrow lm)
      fetched_weights_electrolyte loss_molecule_reshaped
  let loss_solvent :=
    List.zipWith (fun t lm => (sumRows (lm.take m.n_solvent_max)).map (fun x => t * x))
      total_solvent fetched_molecule_loss_weights
  let loss_salt :=
    fetched_molecule_loss_weights.map
      (fun lm => sumRows ((lm.drop m.n_solvent_max).take m.n_salt_max))
  let loss_additive :=
    fetched_molecule_loss_weights.map
      (fun lm => sumRows ((lm.drop (m.n_solvent_max + m.n_salt_max)).take m.n_additive_max))
  let features_electrolyte_indirect :=
    nn_call m.electrolyte_indirect [features_solvent, features_salt, features_additive]
      training
  let d_features_solvent := m.batch_jacobian features_solvent features_electrolyte_indirect
  let d_features_salt := m.batch_jacobian features_salt features_electrolyte_indirect
  let d_features_additive := m.batch_jacobian features_additive features_electrolyte_indirect
  let features_electrolyte :=
    matAdd (rowScale fetched_latent_electrolyte features_electrolyte_direct)
      (rowScale (matMap (fun x => 1 - x) fetched_latent_electrolyte)
        features_electrolyte_indirect)
  let features_cell_indirect :=
    nn_call m.cell_indirect [features_pos, features_neg, features_electrolyte] training
  let d_features_pos := m.batch_jacobian features_pos features_cell_indirect
  let d_features_neg := m.batch_jacobian features_neg features_cell_indirect
  let d_features_electrolyte := m.batch_jacobian features_electrolyte features_cell_indirect
  let features_cell :=
    matAdd (rowScale fetched_latent_cell features_cell_direct)
      (rowScale (matMap (fun x => 1 - x) fetched_latent_cell) features_cell_indirect)
  let loss_output_cell :=
    rowMeanKeep (matScale (1 / 10)
      (incentive_magnitude features_cell .Small .Proportional))
  let loss_output_electrolyte :=
    rowMeanKeep (matScale (1 / 10)
      (incentive_magnitude features_electrolyte .Small .Proportional))
  let _discarded :=
    if sample then matAdd features_cell (matScale m.cell_direct.sample_epsilon eps)
    else features_cell
  let loss_input_electrolyte_indirect :=
    matAdd
      (matAdd
        (rowScale (matMap (fun x => 1 - x) fetched_latent_electrolyte) loss_solvent)
        (rowScale (matMap (fun x => 1 - x) fetched_latent_electrolyte) loss_salt))
      (rowScale (matMap (fun x => 1 - x) fetched_latent_electrolyte) loss_additive)
  let l_solvent := rowMean (incentive_magnitude d_features_solvent .Small .Proportional)
  let l_salt := rowMean (incentive_magnitude d_features_salt .Small .Proportional)
  let l_additive := rowMean (incentive_magnitude d_features_additive .Small .Proportional)
  let mult := fetched_latent_electrolyte.map (fun r => 1 - r.headD 0)
  let loss_derivative_electrolyte_indirect :=
    if compute_derivatives then
      (List.zipWith (fun a b => a + b)
        (List.zipWith (fun a b => a + b)
          (List.zipWith (fun a b => a * b) mult l_solvent)
          (List.zipWith (fun a b => a * b) mult l_salt))
        (List.zipWith (fun a b => a * b) mult l_additive)).map (fun x => [x])
    else scalarLike 0 loss_output_electrolyte
  let loss_electrolyte :=
    matAdd (matAdd loss_output_electrolyte loss_input_electrolyte_indirect)
      loss_derivative_electrolyte_indirect
  let one_minus_latent_cell := matMap (fun x => 1 - x) fetched_latent_cell
  let loss_input_cell_indirect :=
    matAdd
      (matAdd (rowScale one_minus_latent_cell loss_pos)
        (rowScale one_minus_latent_cell loss_neg))
      (rowScale one_minus_latent_cell loss_electrolyte)
  let l_pos := incentive_magnitude d_features_pos .Small .Proportional
  let l_neg := incentive_magnitude d_features_neg .Small .Proportional
  let l_electrolyte := incentive_magnitude d_features_electrolyte .Small .Proportional
  let loss_derivative_cell_indirect :=
    if compute_derivatives then
      matAdd (matAdd (rowScale one_minus_latent_cell l_pos)
        (rowScale one_minus_latent_cell l_neg))
        (rowScale one_minus_latent_cell l_electrolyte)
    else scalarLike 0 loss_output_cell
  let loss : ℚ :=
    if training then
      (1 / 10) * incentive_combine
        [ (1, loss_output_cell)
        , (1, loss_input_cell_indirect)
        , (1, loss_derivative_cell_indirect) ]
    else 0
  { features_cell := features_cell
    loss := loss
    features_pos := features_pos
    features_neg := features_neg
    fetched_latent_cell := fetched_latent_cell }

/-- The incentive list of `projection_loss` (lines 1637-1650): the
latent-masked proportional equality incentives between the stored and the
predicted electrode projections. -/
def projection_terms (sampled_latent sampled_pos predicted_pos
    sampled_neg predicted_neg : Mat) : List (ℚ × Mat) :=
  [ (1, rowScale (matMap (fun x => 1 - x) sampled_latent)
      (incentive_inequality sampled_pos .Equals predicted_pos .Proportional))
  , (1, rowScale (matMap (fun x => 1 - x) sampled_latent)
      (incentive_inequality sampled_neg .Equals predicted_neg .Proportional)) ]

/-- The incentive list of `reciprocal_loss` (lines 1692-1771): the two
reciprocity equality incentives followed by the magnitude and
half-cell-voltage window and monotonicity incentives. -/
def reciprocal_terms (sampled_voltages reciprocal_V sampled_Qs reciprocal_Q
    V_plus V_plus_d_Q V_minus V_minus_d_Q : Mat) : List (ℚ × Mat) :=
  [ (1, incentive_inequality sampled_voltages .Equals reciprocal_V .Proportional)
  , (1, incentive_inequality sampled_Qs .Equals reciprocal_Q .Proportional)
  , (1 / 100, incentive_magnitude V_minus .Small .Proportional)
  , (1 / 100, incentive_magnitude V_plus .Small .Proportional)
  , (1 / 10, incentive_inequality V_minus .GreaterThan (scalarLike 0 V_minus) .Strong)
  , (1 / 10, incentive_inequality V_minus .LessThan (scalarLike 5 V_minus) .Strong)
  , (1 / 10, incentive_inequality V_minus_d_Q .LessThan (scalarLike 0 V_minus_d_Q) .Strong)
  , (1 / 10, incentive_inequality V_plus .GreaterThan (scalarLike 0 V_plus) .Strong)
  , (1 / 10, incentive_inequality V_plus .LessThan (scalarLike 5 V_plus) .Strong)
  , (1 / 10, incentive_inequality V_plus_d_Q .GreaterThan (scalarLike 0 V_plus_d_Q) .Strong) ]

/-- The incentive list of `Q_loss` (lines 1789-1861). -/
def Q_loss_terms (Q : Mat) (Q_der : String → Mat) : List (ℚ × Mat) :=
  [ (1, incentive_magnitude Q .Small .Proportional)
  , (100, incentive_inequality Q .GreaterThan (scalarLike 0 Q) .Strong)
  , (10000, incentive_inequality (Q_der "d_voltage") .GreaterThan
      (scalarLike (1 / 20) (Q_der "d_voltage")) .Strong)
  , (100, incentive_magnitude (Q_der "d3_voltage") .Small .Proportional)
  , (1 / 100, incentive_magnitude (Q_der "d_features") .Small .Proportional)
  , (1 / 100, incentive_magnitude (Q_der "d2_features") .Small .Strong)
  , (100, incentive_magnitude (Q_der "d_shift") .Small .Proportional)
  , (100, incentive_magnitude (Q_der "d2_shift") .Small .Proportional)
  , (100, incentive_magnitude (Q_der "d3_shift") .Small .Proportional) ]

/-- The incentive list of `Q_scale_loss` (lines 1884-1953). -/
def Q_scale_loss_terms (Q_scale : Mat) (Q_scale_der : String → Mat) :
    List (ℚ × Mat) :=
  [ (100, incentive_inequality Q_scale .GreaterThan
      (scalarLike (1 / 100) Q_scale) .Strong)
  , (100, incentive_inequality Q_scale .LessThan (scalarLike 1 Q_scale) .Strong)
  , (1, incentive_inequality (Q_scale_der "d_cycle") .LessThan
      (scalarLike 0 (Q_scale_der "d_cycle")) .Proportional)
  , (1 / 10, incentive_inequality (Q_scale_der "d2_cycle") .LessThan
      (scalarLike 0 (Q_scale_der "d2_cycle")) .Proportional)
  , (100, incentive_magnitude (Q_scale_der "d_cycle") .Small .Proportional)
  , (100, incentive_magnitude (Q_scale_der "d2_cycle") .Small .Proportional)
  , (100, incentive_magnitude (Q_scale_der "d3_cycle") .Small .Proportional)
  , (1, incentive_magnitude (Q_scale_der "d_features") .Small .Proportional)
  , (1, incentive_magnitude (Q_scale_der "d2_features") .Small .Strong) ]

/-- The incentive list of `shift_loss` (lines 1972-2026). -/
def shift_loss_terms (shift : Mat) (shift_der : String → Mat) :
    List (ℚ × Mat) :=
  [ (100, incentive_inequality shift .GreaterThan (scalarLike (-1) shift) .Strong)
  , (100, incentive_inequality shift .LessThan (scalarLike 1 shift) .Strong)
  , (100, incentive_magnitude (shift_der "d_current") .Small .Proportional)
  , (100, incentive_magnitude (shift_der "d2_current") .Small .Proportional)
  , (100, incentive_magnitude (shift_der "d3_current") .Small .Proportional)
  , (1, incentive_magnitude (shift_der "d_features") .Small .Proportional)
  , (1, incentive_magnitude (shift_der "d2_features") .Small .Strong) ]

/-- The incentive list of `r_loss` (lines 2047-2102); the source repeats
the `r > 0.01` incentive twice. -/
def r_loss_terms (r : Mat) (r_der : String → Mat) : List (ℚ × Mat) :=
  [ (100, incentive_inequality r .GreaterThan (scalarLike (1 / 100) r) .Strong)
  , (100, incentive_inequality r .GreaterThan (scalarLike (1 / 100) r) .Strong)
  , (10, incentive_magnitude (r_der "d2_cycle") .Small .Proportional)
  , (100, incentive_magnitude (r_der "d3_cycle") .Small .Proportional)
  , (1, incentive_magnitude (r_der "d_features") .Small .Proportional)
  , (1, incentive_magnitude (r_der "d2_features") .Small .Strong) ]

/-- `DegradationModel.call(x, training)` of
`src/neware_parser/DegradationModel.py` (lines 1503-2202).  `draws`
carries the random samples of the training branch. -/
def DegradationModel.call (m : DegradationModel) (x : CallInput)
    (training : Bool) (draws : TrainingDraws) : List (String × NVal) :=
  let features := (m.z_cell_from_indecies x.indecies training false false draws.eps).features_cell
  let batch_count := x.cycle.length
  let voltage_count := (x.voltage_tensor.headD []).length
  let current_count := (x.current_tensor.headD []).length
  let params : CParams :=
    { batch_count := batch_count
      voltage_count := voltage_count
      current_count := current_count
      voltage := reshapeNeg1 1 x.voltage_tensor
      cv_current := reshapeNeg1 1 x.current_tensor
      cycle := x.cycle
      constant_current := x.constant_current
      end_current_prev := x.end_current_prev
      end_voltage_prev := x.end_voltage_prev
      features := features
      end_voltage := x.end_voltage
      svit_grid := x.svit_grid
      count_matrix := x.count_matrix
      cc_capacity := none }
  let cc_capacity := m.cc_capacity params training
  let pred_cc_capacity := reshapeNeg1 voltage_count cc_capacity
  let cv_capacity := m.cv_capacity params training
  let pred_cv_capacity := reshapeNeg1 current_count cv_capacity
  if training then
    let params := { params with cc_capacity := some x.cc_capacity_measured }
    let cc_voltage := m.cc_voltage params training
    let pred_cc_voltage := reshapeNeg1 voltage_count cc_voltage
    let zOut := m.z_cell_from_indecies draws.cell_indecies false true false draws.eps
    let sampled_features := zOut.features_cell
    let sampled_pos := zOut.features_pos
    let sampled_neg := zOut.features_neg
    let sampled_latent := zOut.fetched_latent_cell
    let sampled_svit_grid := gatherRows x.svit_grid draws.svit_indecies
    let sampled_count_matrix := gatherRows x.count_matrix draws.count_indecies
    let sampled_cell_features := m.cell_features_direct sampled_features training
    let predicted_pos := m.pos_projection_direct sampled_cell_features training
    let predicted_neg := m.neg_projection_direct sampled_cell_features training
    let projection_loss := (1 / 10) * incentive_combine
      (projection_terms sampled_latent sampled_pos predicted_pos sampled_neg predicted_neg)
    let reciprocal_Q := m.reciprocal_Q
      { Q := draws.sampled_Qs, features := sampled_features, shift := draws.sampled_shift }
      training
    let reciprocal_V := m.reciprocal_V
      { voltage := draws.sampled_voltages, features := sampled_features
        shift := draws.sampled_shift }
      training
    let V_plus_out := m.create_derivatives "V_plus_for_derivative"
      m.V_plus_for_derivative
      [("Q", draws.sampled_Qs), ("features", sampled_features)]
    let V_minus_out := m.create_derivatives "V_minus_for_derivative"
      m.V_minus_for_derivative
      [("Q", draws.sampled_Qs), ("features", sampled_features)]
    let reciprocal_loss := 1 * incentive_combine
      (reciprocal_terms draws.sampled_voltages reciprocal_V draws.sampled_Qs
        reciprocal_Q V_plus_out.1 (V_plus_out.2 "d_Q") V_minus_out.1
        (V_minus_out.2 "d_Q"))
    let Q_out := m.create_derivatives "Q_for_derivative" m.Q_for_derivative
      [ ("voltage", draws.sampled_voltages), ("features", sampled_features)
      , ("shift", draws.sampled_shift) ]
    let Q_loss := (1 / 10000) * incentive_combine (Q_loss_terms Q_out.1 Q_out.2)
    let Q_scale_out := m.create_derivatives "Q_scale_for_derivative"
      m.Q_scale_for_derivative
      [ ("cycle", draws.sampled_cycles), ("current", draws.sampled_constant_current)
      , ("features", sampled_features), ("svit_grid", sampled_svit_grid)
      , ("count_matrix", sampled_count_matrix) ]
    let Q_scale_loss := (1 / 10000) * incentive_combine
      (Q_scale_loss_terms Q_scale_out.1 Q_scale_out.2)
    let shift_out := m.create_derivatives "shift_for_derivative"
      m.shift_for_derivative
      [ ("cycle", draws.sampled_cycles), ("current", draws.sampled_constant_current)
      , ("features", sampled_features), ("svit_grid", sampled_svit_grid)
      , ("count_matrix", sampled_count_matrix) ]
    let shift_loss := (1 / 10000) * incentive_combine
      (shift_loss_terms shift_out.1 shift_out.2)
    let r_out := m.create_derivatives "r_for_derivative" m.r_for_derivative
      [ ("cycle", draws.sampled_cycles), ("features", sampled_features)
      , ("svit_grid", sampled_svit_grid), ("count_matrix", sampled_count_matrix) ]
    let r_loss := (1 / 10000) * incentive_combine (r_loss_terms r_out.1 r_out.2)
    let z_cell_loss :=
      (m.z_cell_from_indecies (List.range m.cell_direct.num_keys) true false true
        draws.eps).loss
    [ ("pred_cc_capacity", NVal.mat pred_cc_capacity)
    , ("pred_cv_capacity", NVal.mat pred_cv_capacity)
    , ("pred_cc_voltage", NVal.mat pred_cc_voltage)
    , ("Q_loss", NVal.scalar Q_loss)
    , ("Q_scale_loss", NVal.scalar Q_scale_loss)
    , ("r_loss", NVal.scalar r_loss)
    , ("shift_loss", NVal.scalar shift_loss)
    , ("z_cell_loss", NVal.scalar z_cell_loss)
    , ("reciprocal_loss", NVal.scalar reciprocal_loss)
    , ("projection_loss", NVal.scalar projection_loss) ]
  else
    let norm_constant := m.norm_constant_direct params.features training
    let norm_cycle := m.norm_cycle_direct params.cycle norm_constant training
    let cell_features := m.cell_features_direct params.features training
    let encoded_stress := m.stress_to_encoded_direct params.svit_grid
      params.count_matrix true
    let strain := m.stress_to_strain_direct norm_cycle cell_features
      encoded_stress training
    let Q_scale_strainless := m.Q_scale_strainless_direct cell_features training
    let shift_0_strainless := m.shift_strainless_direct params.constant_current
      cell_features training
    let resistance_strainless := m.R_strainless_direct cell_features training
    let Q_scale := m.Q_scale_direct strain params.constant_current
      Q_scale_strainless training
    let shift := m.shift_direct strain params.constant_current
      shift_0_strainless training
    let resistance := m.R_direct strain resistance_strainless training
    [ ("pred_cc_capacity", NVal.mat pred_cc_capacity)
    , ("pred_cv_capacity", NVal.mat pred_cv_capacity)
    , ("pred_R", NVal.mat resistance)
    , ("pred_Q_scale", NVal.mat Q_scale)
    , ("pred_shift", NVal.mat shift) ]

end UBD.NewareParser

namespace UBD.Blackbox

/-! Embedding of `DegradationModel` of
`src/machine_learning/DegradationModelBlackbox.py`.

The modules `machine_learning/PrimitiveDictionaryLayer.py`,
`machine_learning/fnn_functions.py` and
`machine_learning/loss_calculator_blackbox.py` are not under `src/`, so
`self.cell_direct`, the capacity networks `cc_capacity`/`cv_capacity`
(whose `q_direct` core draws a fresh random Fourier-feature matrix from
numpy on every call) and the composition
`calculate_q_loss(create_derivatives(q_for_derivative, sample(...)))`
are unconstrained function fields of the structure: the claims settled
here concern only the dictionary structure of `call` and the loss wiring
of `cell_from_indices`, both of which are in `src/`. -/

/-- Keys of the dictionary returned by `DegradationModel.call`
(`Key.Pred.I_CC`, `Key.Pred.I_CV`, `Key.Loss.Q`, `Key.Loss.CELL`); the
`Key` module is not under `src/`. -/
inductive Key
  | predICC
  | predICV
  | lossQ
  | lossCell
deriving DecidableEq, BEq

/-- A value of the returned dictionary: a tensor or a scalar loss. -/
inductive Val
  | mat (m : Mat)
  | scalar (q : ℚ)
deriving DecidableEq, BEq

/-- The outer `params` dictionary taken by `DegradationModel.call`. -/
structure CallParams where
  cycle : Mat
  constant_current : Mat
  end_current_prev : Mat
  end_voltage_prev : Mat
  end_voltage : Mat
  indices : List ℕ
  voltage_tensor : Mat
  current_tensor : Mat
  svit_grid : Mat
  count_matrix : Mat

/-- The inner `params` dictionary that `call` builds and passes to
`cc_capacity` and `cv_capacity`. -/
structure InnerParams where
  count_batch : ℕ
  count_v : ℕ
  count_i : ℕ
  v : Mat
  i_cv : Mat
  cycle : Mat
  i_cc : Mat
  i_prev_end : Mat
  v_prev_end : Mat
  cell_feat : Mat
  v_end : Mat
  svit_grid : Mat
  count_matrix : Mat

/-- The blackbox `DegradationModel`.  Numeric components living in modules
outside `src/` are unconstrained function fields (see the namespace
comment). -/
structure DegradationModel where
  min_latent : ℚ
  n_sample : ℕ
  coeff_cell_output : ℚ
  num_feats : ℕ
  cell_direct : List ℕ → Bool → Bool → Mat × Option Mat
  cell_direct_num_keys : ℕ
  cell_direct_sample_epsilon : ℚ
  cell_latent_flags : Mat
  cc_capacity : InnerParams → Bool → Mat
  cv_capacity : InnerParams → Bool → Mat
  q_loss_fn : Mat → ℕ → Mat → ℕ → ℚ

/-- `DegradationModel.cell_from_indices(indices, training, sample)`
(lines 189-233 of `DegradationModelBlackbox.py`).  `eps` is the gaussian
draw of the sample branch (this variant really adds it, `feats_cell += ...`).
Returns `(feats_cell, loss, fetched_latent_cell)`. -/
def DegradationModel.cell_from_indices (m : DegradationModel)
    (indices : List ℕ) (training sample : Bool) (eps : Mat) : Mat × ℚ × Mat :=
  let feats_cell_direct := (m.cell_direct indices training false).1
  let fetched_latent_cell := gatherRows m.cell_latent_flags indices
  let fetched_latent_cell :=
    matMap (fun x => m.min_latent + (1 - m.min_latent) * x) fetched_latent_cell
  let feats_cell := rowScale fetched_latent_cell feats_cell_direct
  let loss_output_cell :=
    rowMeanKeep (incentive_magnitude feats_cell .Small .Proportional)
  let feats_cell :=
    if sample then matAdd feats_cell (matScale m.cell_direct_sample_epsilon eps)
    else feats_cell
  let loss : ℚ :=
    if training then incentive_combine [(m.coeff_cell_output, loss_output_cell)]
    else 0
  (feats_cell, loss, fetched_latent_cell)

/-- The inner `params` dictionary built by `call` (lines 126-144). -/
def DegradationModel.callInner (m : DegradationModel) (p : CallParams)
    (training : Bool) : InnerParams :=
  let feats_cell := (m.cell_from_indices p.indices training false []).1
  { count_batch := p.cycle.length
    count_v := (p.voltage_tensor.headD []).length
    count_i := (p.current_tensor.headD []).length
    v := reshapeNeg1 1 p.voltage_tensor
    i_cv := reshapeNeg1 1 p.current_tensor
    cycle := p.cycle
    i_cc := p.constant_current
    i_prev_end := p.end_current_prev
    v_prev_end := p.end_voltage_prev
    cell_feat := feats_cell
    v_end := p.end_voltage
    svit_grid := p.svit_grid
    count_matrix := p.count_matrix }

/-- `DegradationModel.call(params, training)` of
`DegradationModelBlackbox.py` (lines 80-187): predicts the reshaped
constant-current and constant-voltage capacities, and during training adds
the `Q` loss and the `CELL` loss to the returned dictionary. -/
def DegradationModel.call (m : DegradationModel) (p : CallParams)
    (training : Bool) : List (Key × Val) :=
  let batch_count := p.cycle.length
  let voltage_count := (p.voltage_tensor.headD []).length
  let current_count := (p.current_tensor.headD []).length
  let params := m.callInner p training
  let cc_capacity := m.cc_capacity params training
  let pred_cc_capacity := reshapeNeg1 voltage_count cc_capacity
  let cv_capacity := m.cv_capacity params training
  let pred_cv_capacity := reshapeNeg1 current_count cv_capacity
  let returns :=
    [ (Key.predICC, Val.mat pred_cc_capacity)
    , (Key.predICV, Val.mat pred_cv_capacity) ]
  if training then
    let q_loss := m.q_loss_fn p.svit_grid batch_count p.count_matrix m.n_sample
    let cell_loss :=
      (m.cell_from_indices (List.range m.cell_direct_num_keys) true false []).2.1
    returns ++ [(Key.lossQ, Val.scalar q_loss), (Key.lossCell, Val.scalar cell_loss)]
  else
    returns

end UBD.Blackbox

namespace UBD

/-! Shape lemmas for `tf.reshape(x, [-1, k])`. -/

theorem chunkRows_shape (k n : ℕ) (v : Vec) (hk : 0 < k)
    (hlen : v.length = n * k) :
    (chunkRows k v).length = n ∧ ∀ r ∈ chunkRows k v, r.length = k := by
  constructor
  · simp [chunkRows, hlen, Nat.mul_div_cancel _ hk]
  · intro r hr
    simp only [chunkRows, List.mem_map, List.mem_range] at hr
    obtain ⟨i, hi, rfl⟩ := hr
    rw [hlen, Nat.mul_div_cancel _ hk] at hi
    simp only [List.length_take, List.length_drop, hlen]
    have : i * k + k ≤ n * k := by
      have : i + 1 ≤ n := hi
      calc i * k + k = (i + 1) * k := by ring
        _ ≤ n * k := Nat.mul_le_mul_right k this
    omega

theorem reshapeNeg1_shape (k n : ℕ) (A : Mat) (hk : 0 < k)
    (hsize : matSize A = n * k) :
    (reshapeNeg1 k A).length = n ∧ ∀ r ∈ reshapeNeg1 k A, r.length = k := by
  have hflat : A.flatten.length = n * k := by
    rw [List.length_flatten]
    simpa [matSize] using hsize
  exact chunkRows_shape k n A.flatten hk hflat

end UBD

namespace UBD.CellDatabase

/-! Model of the Django migration
`src/cell_database/migrations/0002_auto_20200610_1318.py`. -/

/-- Values of `django.db.models.deletion` used as `on_delete`. -/
inductive OnDelete
  | CASCADE
  | PROTECT
  | SET_NULL
  | SET_DEFAULT
  | DO_NOTHING
deriving DecidableEq

/-- Django model fields, with the options the migration sets. -/
inductive DjangoField
  | AutoField (auto_created primary_key serialize : Bool) (verbose_name : String)
  | CharField (blank : Bool) (max_length : ℕ)
  | BooleanField (blank default : Bool)
  | ForeignKey (blank null : Bool) (on_delete : OnDelete) (to_model : String)
deriving DecidableEq

/-- Django migration operations.  `RunPython` and `RunSQL` are the data
transformations Django offers; the other constructors are pure schema
operations. -/
inductive Operation
  | CreateModel (name : String) (fields : List (String × DjangoField))
  | AddField (model_name fname : String) (field : DjangoField)
  | RemoveField (model_name fname : String)
  | DeleteModel (name : String)
  | RunPython (note : String)
  | RunSQL (sql : String)
deriving DecidableEq

/-- An operation that transforms data rather than the schema. -/
def Operation.isDataTransformation : Operation → Bool
  | .RunPython _ => true
  | .RunSQL _ => true
  | _ => false

/-- A Django migration: dependencies and operations. -/
structure Migration where
  dependencies : List (String × String)
  operations : List Operation
deriving DecidableEq

/-- The migration of `0002_auto_20200610_1318.py`, transcribed. -/
def migration_0002_auto_20200610_1318 : Migration :=
  { dependencies := [("cell_database", "0001_initial")]
    operations :=
      [ .CreateModel "MaterialType"
          [ ("id", .AutoField true true false "ID")
          , ("notes", .CharField true 100) ]
      , .AddField "component" "material_type_name" (.BooleanField true false)
      , .AddField "component" "material_type"
          (.ForeignKey true true .SET_NULL "cell_database.MaterialType") ] }

end UBD.CellDatabase

namespace UBD

/-! Claim theorems for the incentive functions and the migration. -/

/-- C2: `incentive_inequality` at `Level.Strong` is elementwise nonnegative
and vanishes at exactly the entries where the stated relation holds
(`A <= B` for `LessThan`, `A >= B` for `GreaterThan`, `A = B` for
`Equals`), and for every symbol the `Level.Proportional` result is the
elementwise square of the `Level.Strong` result. -/
theorem incentive_inequality_spec (A B : Mat) (symbol : Inequality) (i j : ℕ)
    (hiA : i < A.length) (hiB : i < B.length)
    (hjA : j < (A.getD i []).length) (hjB : j < (B.getD i []).length) :
    0 ≤ entry (incentive_inequality A symbol B .Strong) i j
    ∧ (entry (incentive_inequality A symbol B .Strong) i j = 0 ↔
        (match symbol with
         | .LessThan => entry A i j ≤ entry B i j
         | .GreaterThan => entry B i j ≤ entry A i j
         | .Equals => entry A i j = entry B i j))
    ∧ incentive_inequality A symbol B .Proportional
      = matMap (fun x => x ^ 2) (incentive_inequality A symbol B .Strong) := by
  refine ⟨?_, ?_, ?_⟩
  · cases symbol
    · show 0 ≤ entry (matZipWith (fun a b => relu (a - b)) A B) i j
      rw [entry_matZipWith _ A B i j hiA hiB hjA hjB]
      exact le_max_right _ _
    · show 0 ≤ entry (matZipWith (fun a b => relu (b - a)) A B) i j
      rw [entry_matZipWith _ A B i j hiA hiB hjA hjB]
      exact le_max_right _ _
    · show 0 ≤ entry (matZipWith (fun a b => |a - b|) A B) i j
      rw [entry_matZipWith _ A B i j hiA hiB hjA hjB]
      exact abs_nonneg _
  · cases symbol
    · show entry (matZipWith (fun a b => relu (a - b)) A B) i j = 0 ↔ _
      rw [entry_matZipWith _ A B i j hiA hiB hjA hjB]
      show max _ 0 = 0 ↔ _
      rw [max_eq_right_iff]
      exact sub_nonpos
    · show entry (matZipWith (fun a b => relu (b - a)) A B) i j = 0 ↔ _
      rw [entry_matZipWith _ A B i j hiA hiB hjA hjB]
      show max _ 0 = 0 ↔ _
      rw [max_eq_right_iff]
      exact sub_nonpos
    · show entry (matZipWith (fun a b => |a - b|) A B) i j = 0 ↔ _
      rw [entry_matZipWith _ A B i j hiA hiB hjA hjB]
      rw [abs_eq_zero, sub_eq_zero]
  · cases symbol <;> rfl

/-- C2 witness: concrete evaluation at `A = [[1]]`, `B = [[2]]`,
`symbol = LessThan`. -/
theorem incentive_inequality_spec_witness :
    0 ≤ entry (incentive_inequality [[1]] .LessThan [[2]] .Strong) 0 0
    ∧ (entry (incentive_inequality [[1]] .LessThan [[2]] .Strong) 0 0 = 0 ↔
        entry [[(1 : ℚ)]] 0 0 ≤ entry [[(2 : ℚ)]] 0 0)
    ∧ incentive_inequality [[1]] .LessThan [[2]] .Proportional
      = matMap (fun x => x ^ 2) (incentive_inequality [[1]] .LessThan [[2]] .Strong) :=
  incentive_inequality_spec [[1]] [[2]] .LessThan 0 0
    (by decide) (by decide) (by decide) (by decide)

/-- C6: `incentive_magnitude` equals `|A|` at `(Small, Strong)`, the
elementwise square at `(Small, Proportional)`, the negations of those at
`Target.Big`; the `Small` results are nonnegative and the `Big` results
nonpositive entrywise; and the function is even in `A` for every target
and level. -/
theorem incentive_magnitude_spec (A : Mat) :
    incentive_magnitude A .Small .Strong = matMap (fun a => |a|) A
    ∧ incentive_magnitude A .Small .Proportional = matMap (fun a => a ^ 2) A
    ∧ incentive_magnitude A .Big .Strong = matMap (fun a => -|a|) A
    ∧ incentive_magnitude A .Big .Proportional = matMap (fun a => -(a ^ 2)) A
    ∧ (∀ level : Level, ∀ r ∈ incentive_magnitude A .Small level, ∀ x ∈ r, 0 ≤ x)
    ∧ (∀ level : Level, ∀ r ∈ incentive_magnitude A .Big level, ∀ x ∈ r, x ≤ 0)
    ∧ (∀ (target : Target) (level : Level),
        incentive_magnitude (matMap (fun a => -a) A) target level
          = incentive_magnitude A target level) := by
  have key : ∀ B : Mat,
      incentive_magnitude B .Small .Strong = matMap (fun a => |a|) B
      ∧ incentive_magnitude B .Small .Proportional = matMap (fun a => a ^ 2) B
      ∧ incentive_magnitude B .Big .Strong = matMap (fun a => -|a|) B
      ∧ incentive_magnitude B .Big .Proportional = matMap (fun a => -(a ^ 2)) B := by
    intro B
    refine ⟨?_, ?_, ?_, ?_⟩
    · show matMap (fun x => (1 : ℚ) * x) (matMap (fun a => |a|) B) = _
      rw [matMap_matMap]
      exact matMap_congr _ _ (fun x => one_mul _) B
    · show matMap (fun x => (1 : ℚ) * x)
        (matMap (fun x => x ^ 2) (matMap (fun a => |a|) B)) = _
      rw [matMap_matMap, matMap_matMap]
      exact matMap_congr _ _ (fun x => by rw [one_mul, sq_abs]) B
    · show matMap (fun x => (-1 : ℚ) * x) (matMap (fun a => |a|) B) = _
      rw [matMap_matMap]
      exact matMap_congr _ _ (fun x => by rw [neg_one_mul]) B
    · show matMap (fun x => (-1 : ℚ) * x)
        (matMap (fun x => x ^ 2) (matMap (fun a => |a|) B)) = _
      rw [matMap_matMap, matMap_matMap]
      exact matMap_congr _ _ (fun x => by rw [neg_one_mul, sq_abs]) B
  obtain ⟨h1, h2, h3, h4⟩ := key A
  refine ⟨h1, h2, h3, h4, ?_, ?_, ?_⟩
  · intro level r hr x hx
    cases level
    · rw [h1] at hr
      obtain ⟨y, rfl⟩ := mem_matMap _ A x ⟨r, hr, hx⟩
      exact abs_nonneg y
    · rw [h2] at hr
      obtain ⟨y, rfl⟩ := mem_matMap _ A x ⟨r, hr, hx⟩
      positivity
  · intro level r hr x hx
    cases level
    · rw [h3] at hr
      obtain ⟨y, rfl⟩ := mem_matMap _ A x ⟨r, hr, hx⟩
      exact neg_nonpos.mpr (abs_nonneg y)
    · rw [h4] at hr
      obtain ⟨y, rfl⟩ := mem_matMap _ A x ⟨r, hr, hx⟩
      exact neg_nonpos.mpr (sq_nonneg y)
  · intro target level
    obtain ⟨g1, g2, g3, g4⟩ := key (matMap (fun a => -a) A)
    cases target <;> cases level
    · rw [g1, h1, matMap_matMap]
      exact matMap_congr _ _ (fun x => abs_neg x) A
    · rw [g2, h2, matMap_matMap]
      exact matMap_congr _ _ (fun x => neg_sq x) A
    · rw [g3, h3, matMap_matMap]
      exact matMap_congr _ _ (fun x => by rw [abs_neg]) A
    · rw [g4, h4, matMap_matMap]
      exact matMap_congr _ _ (fun x => by rw [neg_sq]) A

/-- C7: `incentive_combine` is the sum of coefficient times mean over the
list, hence additive under concatenation, homogeneous in each coefficient
and zero on the empty list. -/
theorem incentive_combine_spec :
    (∀ As : List (ℚ × Mat),
      incentive_combine As = ∑ i : Fin As.length, ((As.get i).1 * matMean (As.get i).2))
    ∧ (∀ As Bs : List (ℚ × Mat),
      incentive_combine (As ++ Bs) = incentive_combine As + incentive_combine Bs)
    ∧ (∀ (k c : ℚ) (t : Mat) (As : List (ℚ × Mat)),
      incentive_combine ((k * c, t) :: As) = k * (c * matMean t) + incentive_combine As)
    ∧ incentive_combine [] = 0 := by
  refine ⟨?_, ?_, ?_, rfl⟩
  · intro As
    show (As.map (fun a => a.1 * matMean a.2)).sum = _
    conv_lhs => rw [← List.ofFn_get As]
    rw [List.map_ofFn, List.sum_ofFn]
    rfl
  · intro As Bs
    simp [incentive_combine]
  · intro k c t As
    simp [incentive_combine, mul_assoc]

theorem matMap_matZipWith (g : ℚ → ℚ) (f : ℚ → ℚ → ℚ) (A B : Mat) :
    matMap g (matZipWith f A B) = matZipWith (fun a b => g (f a b)) A B := by
  simp [matMap, matZipWith, List.map_zipWith]

theorem foldr_max_mem (l : List ℕ) (h : l ≠ []) : l.foldr max 0 ∈ l := by
  induction l with
  | nil => exact absurd rfl h
  | cons a t ih =>
    cases t with
    | nil => simp
    | cons b t2 =>
      rw [List.foldr_cons]
      rcases le_total ((b :: t2).foldr max 0) a with hle | hle
      · rw [max_eq_left hle]
        exact List.mem_cons_self a _
      · rw [max_eq_right hle]
        exact List.mem_cons_of_mem a (ih (by simp))

theorem le_foldr_max (l : List ℕ) (x : ℕ) (hx : x ∈ l) : x ≤ l.foldr max 0 := by
  induction l with
  | nil => simp at hx
  | cons a t ih =>
    rw [List.foldr_cons]
    rcases List.mem_cons.mp hx with rfl | h
    · exact le_max_left _ _
    · exact le_trans (ih h) (le_max_right _ _)

theorem gatherChecked_isSome (A : Mat) (idx : List ℕ)
    (h : ∀ i ∈ idx, i < A.length) : (gatherChecked A idx).isSome = true := by
  unfold gatherChecked
  rw [if_pos]
  · rfl
  · rw [List.all_eq_true]
    intro i hi
    exact decide_eq_true (h i hi)

/-- C8: migration `0002_auto_20200610_1318` depends exactly on
`cell_database.0001_initial` and performs exactly three operations, none a
data transformation: it creates model `MaterialType` with the auto-created
primary-key field `id` and an optional `CharField` `notes` of max length
100, adds to `component` a `BooleanField` `material_type_name` with
default `False`, and adds to `component` a nullable optional `ForeignKey`
`material_type` to `MaterialType` with `SET_NULL` deletion behaviour. -/
theorem migration_0002_spec :
    CellDatabase.migration_0002_auto_20200610_1318.dependencies
      = [("cell_database", "0001_initial")]
    ∧ CellDatabase.migration_0002_auto_20200610_1318.operations.length = 3
    ∧ (∀ op ∈ CellDatabase.migration_0002_auto_20200610_1318.operations,
        op.isDataTransformation = false)
    ∧ CellDatabase.migration_0002_auto_20200610_1318.operations.getD 0
        (.DeleteModel "")
      = .CreateModel "MaterialType"
          [ ("id", .AutoField true true false "ID")
          , ("notes", .CharField true 100) ]
    ∧ CellDatabase.migration_0002_auto_20200610_1318.operations.getD 1
        (.DeleteModel "")
      = .AddField "component" "material_type_name" (.BooleanField true false)
    ∧ CellDatabase.migration_0002_auto_20200610_1318.operations.getD 2
        (.DeleteModel "")
      = .AddField "component" "material_type"
          (.ForeignKey true true .SET_NULL "cell_database.MaterialType") := by
  refine ⟨rfl, rfl, ?_, rfl, rfl, rfl⟩
  intro op hop
  simp only [CellDatabase.migration_0002_auto_20200610_1318,
    List.mem_cons, List.not_mem_nil, or_false] at hop
  rcases hop with rfl | rfl | rfl <;> rfl

end UBD

namespace UBD

/-! Claim theorems for the two degradation models. -/

/-- C9: evaluation mode never produces a regularization loss: with
`training=False` both `cell_from_indices` of
`DegradationModelBlackbox.py` and `z_cell_from_indecies` of
`neware_parser/DegradationModel.py` return a loss exactly equal to `0`,
regardless of the indices, the sample flag, the random draw and the layer
weights. -/
theorem evaluation_loss_zero (m : Blackbox.DegradationModel)
    (indices : List ℕ) (sample : Bool) (eps : Mat)
    (nm : NewareParser.DegradationModel) (indecies : List ℕ)
    (sample2 compute_derivatives : Bool) (eps2 : Mat) :
    (m.cell_from_indices indices false sample eps).2.1 = 0
    ∧ (nm.z_cell_from_indecies indecies false sample2 compute_derivatives
        eps2).loss = 0 :=
  ⟨rfl, rfl⟩

/-- C4: in `neware_parser/DegradationModel.py` the returned features do
not depend on the sample flag or on the gaussian draw:
`PrimitiveDictionaryLayer.call` returns the same `fetched_features` with
`sample=True` as with `sample=False` for every `eps` (the expression
`fetched_features + self.sample_epsilon * eps` is discarded), and
`z_cell_from_indecies` returns the same `features_cell` (the expression
`features_cell + self.cell_direct.sample_epsilon * eps` is discarded). -/
theorem sample_flag_no_effect
    (layer : NewareParser.PrimitiveDictionaryLayer) (input : List ℕ)
    (training : Bool) (eps : Mat)
    (m : NewareParser.DegradationModel) (indecies : List ℕ)
    (training2 compute_derivatives : Bool) (eps2 : Mat) :
    (layer.call input training true eps).1
      = (layer.call input training false eps).1
    ∧ (m.z_cell_from_indecies indecies training2 true compute_derivatives
        eps2).features_cell
      = (m.z_cell_from_indecies indecies training2 false compute_derivatives
          eps2).features_cell :=
  ⟨rfl, rfl⟩

/-- C3: `reciprocal_Q` is `Q_direct` composed with `V_direct` and
`reciprocal_V` is `V_direct` composed with `Q_direct`, both legs sharing
the same shift and the same cell features extracted by
`cell_features_direct`; the first two terms of the `reciprocal_loss`
incentive list are the `Equals`/`Proportional` incentives between the
sampled voltages/Qs and these round trips; and the `Equals`/`Proportional`
incentive is exactly the elementwise squared deviation. -/
theorem reciprocal_spec (m : NewareParser.DegradationModel)
    (pQ : NewareParser.ReciprocalQParams) (pV : NewareParser.ReciprocalVParams)
    (training : Bool) (A B : Mat)
    (sv rV sQ rQ Vp Vpd Vm Vmd : Mat) :
    m.reciprocal_Q pQ training
      = m.Q_direct
          (m.V_direct pQ.Q pQ.shift (m.cell_features_direct pQ.features training)
            training)
          pQ.shift (m.cell_features_direct pQ.features training) training
    ∧ m.reciprocal_V pV training
      = m.V_direct
          (m.Q_direct pV.voltage pV.shift
            (m.cell_features_direct pV.features training) training)
          pV.shift (m.cell_features_direct pV.features training) training
    ∧ (NewareParser.reciprocal_terms sv rV sQ rQ Vp Vpd Vm Vmd).take 2
      = [ (1, incentive_inequality sv .Equals rV .Proportional)
        , (1, incentive_inequality sQ .Equals rQ .Proportional) ]
    ∧ incentive_inequality A .Equals B .Proportional
      = matZipWith (fun a b => (a - b) ^ 2) A B := by
  refine ⟨rfl, rfl, rfl, ?_⟩
  show matMap (fun x => x ^ 2) (matZipWith (fun a b => |a - b|) A B) = _
  rw [matMap_matZipWith]
  have : (fun a b : ℚ => |a - b| ^ 2) = fun a b : ℚ => (a - b) ^ 2 := by
    funext a b
    rw [sq_abs]
  rw [this]

/-- C5: `DegradationModel.call` of `neware_parser/DegradationModel.py`
with `training=True` returns a dictionary with exactly the three
prediction tensors and the seven loss terms `Q_loss`, `Q_scale_loss`,
`r_loss`, `shift_loss`, `z_cell_loss`, `reciprocal_loss`,
`projection_loss`; each loss is a coefficient times `incentive_combine`
of its incentive list, and `incentive_combine` scaled by a coefficient is
the weighted sum of the means of the individual incentive tensors. -/
theorem neware_call_training_spec (m : NewareParser.DegradationModel)
    (x : NewareParser.CallInput) (draws : NewareParser.TrainingDraws) :
    ((m.call x true draws).map Prod.fst
      = [ "pred_cc_capacity", "pred_cv_capacity", "pred_cc_voltage", "Q_loss"
        , "Q_scale_loss", "r_loss", "shift_loss", "z_cell_loss"
        , "reciprocal_loss", "projection_loss" ])
    ∧ ((m.call x false draws).map Prod.fst
      = [ "pred_cc_capacity", "pred_cv_capacity", "pred_R", "pred_Q_scale"
        , "pred_shift" ])
    ∧ (∃ Q Qd, (m.call x true draws).lookup "Q_loss"
        = some (.scalar ((1 / 10000) * incentive_combine
            (NewareParser.Q_loss_terms Q Qd))))
    ∧ (∃ QS QSd, (m.call x true draws).lookup "Q_scale_loss"
        = some (.scalar ((1 / 10000) * incentive_combine
            (NewareParser.Q_scale_loss_terms QS QSd))))
    ∧ (∃ r rd, (m.call x true draws).lookup "r_loss"
        = some (.scalar ((1 / 10000) * incentive_combine
            (NewareParser.r_loss_terms r rd))))
    ∧ (∃ s sd, (m.call x true draws).lookup "shift_loss"
        = some (.scalar ((1 / 10000) * incentive_combine
            (NewareParser.shift_loss_terms s sd))))
    ∧ (∃ t1 t2 t3, (m.call x true draws).lookup "z_cell_loss"
        = some (.scalar ((1 / 10) * incentive_combine
            [(1, t1), (1, t2), (1, t3)])))
    ∧ (∃ a b c d e f g h, (m.call x true draws).lookup "reciprocal_loss"
        = some (.scalar (1 * incentive_combine
            (NewareParser.reciprocal_terms a b c d e f g h))))
    ∧ (∃ a b c d e, (m.call x true draws).lookup "projection_loss"
        = some (.scalar ((1 / 10) * incentive_combine
            (NewareParser.projection_terms a b c d e))))
    ∧ (∀ (c : ℚ) (As : List (ℚ × Mat)),
        c * incentive_combine As
          = (As.map (fun a => c * (a.1 * matMean a.2))).sum) := by
  refine ⟨rfl, rfl, ⟨_, _, rfl⟩, ⟨_, _, rfl⟩, ⟨_, _, rfl⟩, ⟨_, _, rfl⟩,
    ⟨_, _, _, rfl⟩, ⟨_, _, _, _, _, _, _, _, rfl⟩, ⟨_, _, _, _, _, rfl⟩, ?_⟩
  intro c As
  induction As with
  | nil => simp [incentive_combine]
  | cons a t ih =>
    simp only [incentive_combine, List.map_cons, List.sum_cons, mul_add] at ih ⊢
    rw [ih]

/-- C1: `DegradationModel.call` of `DegradationModelBlackbox.py` returns
exactly the keys `Key.Pred.I_CC` and `Key.Pred.I_CV` in evaluation mode,
plus `Key.Loss.Q` and `Key.Loss.CELL` in training mode; the `I_CC` value
is the `cc_capacity` result reshaped to `[batch_count, voltage_count]`
and the `I_CV` value is the `cv_capacity` result reshaped to
`[batch_count, current_count]` (the shape statements hold whenever the
capacity tensors have the sizes the pipeline produces). -/
theorem blackbox_call_spec (m : Blackbox.DegradationModel)
    (p : Blackbox.CallParams) (training : Bool)
    (hv : 0 < (p.voltage_tensor.headD []).length)
    (hi : 0 < (p.current_tensor.headD []).length)
    (hcc : matSize (m.cc_capacity (m.callInner p training) training)
      = p.cycle.length * (p.voltage_tensor.headD []).length)
    (hcv : matSize (m.cv_capacity (m.callInner p training) training)
      = p.cycle.length * (p.current_tensor.headD []).length) :
    ((m.call p training).map Prod.fst
      = if training then
          [Blackbox.Key.predICC, .predICV, .lossQ, .lossCell]
        else [Blackbox.Key.predICC, .predICV])
    ∧ (m.call p training).lookup Blackbox.Key.predICC
      = some (.mat (reshapeNeg1 ((p.voltage_tensor.headD []).length)
          (m.cc_capacity (m.callInner p training) training)))
    ∧ (m.call p training).lookup Blackbox.Key.predICV
      = some (.mat (reshapeNeg1 ((p.current_tensor.headD []).length)
          (m.cv_capacity (m.callInner p training) training)))
    ∧ (reshapeNeg1 ((p.voltage_tensor.headD []).length)
        (m.cc_capacity (m.callInner p training) training)).length
      = p.cycle.length
    ∧ (∀ r ∈ reshapeNeg1 ((p.voltage_tensor.headD []).length)
        (m.cc_capacity (m.callInner p training) training),
        r.length = (p.voltage_tensor.headD []).length)
    ∧ (reshapeNeg1 ((p.current_tensor.headD []).length)
        (m.cv_capacity (m.callInner p training) training)).length
      = p.cycle.length
    ∧ (∀ r ∈ reshapeNeg1 ((p.current_tensor.headD []).length)
        (m.cv_capacity (m.callInner p training) training),
        r.length = (p.current_tensor.headD []).length)
    ∧ (training = true →
        (m.call p training).lookup Blackbox.Key.lossQ
          = some (.scalar (m.q_loss_fn p.svit_grid p.cycle.length
              p.count_matrix m.n_sample))
        ∧ (m.call p training).lookup Blackbox.Key.lossCell
          = some (.scalar ((m.cell_from_indices
              (List.range m.cell_direct_num_keys) true false []).2.1))) := by
  obtain ⟨hl1, hl2⟩ := reshapeNeg1_shape _ p.cycle.length
    (m.cc_capacity (m.callInner p training) training) hv hcc
  obtain ⟨hl3, hl4⟩ := reshapeNeg1_shape _ p.cycle.length
    (m.cv_capacity (m.callInner p training) training) hi hcv
  cases training
  · exact ⟨rfl, rfl, rfl, hl1, hl2, hl3, hl4, fun h => by cases h⟩
  · exact ⟨rfl, rfl, rfl, hl1, hl2, hl3, hl4, fun _ => ⟨rfl, rfl⟩⟩

/-- C10: `PrimitiveDictionaryLayer.__init__` sets
`num_keys = 1 + max(id_dict.values())` and allocates the kernel with
exactly `num_keys` rows, so every dictionary value indexes below
`num_keys` and every gather at dictionary values, at `tf.range(num_keys)`
indices, or at uniform draws from `[0, num_keys)` stays in bounds (the
error branch of the checked lookup is unreachable). -/
theorem primitive_dictionary_bounds (num_features : ℕ)
    (id_dict : List (ℕ × ℕ)) (w : ℕ → ℕ → ℚ)
    (L : NewareParser.PrimitiveDictionaryLayer)
    (hL : L = NewareParser.mkPrimitiveDictionaryLayer num_features id_dict w)
    (hne : id_dict ≠ []) :
    L.num_keys = 1 + NewareParser.maxValues id_dict
    ∧ (∃ kv ∈ id_dict, kv.2 = NewareParser.maxValues id_dict)
    ∧ (∀ kv ∈ id_dict, kv.2 ≤ NewareParser.maxValues id_dict)
    ∧ L.kernel.length = L.num_keys
    ∧ (∀ kv ∈ id_dict, kv.2 < L.num_keys)
    ∧ (∀ idx : List ℕ, (∀ i ∈ idx, ∃ kv ∈ id_dict, i = kv.2) →
        (gatherChecked L.kernel idx).isSome = true)
    ∧ (gatherChecked L.kernel (List.range L.num_keys)).isSome = true
    ∧ (∀ draws : List ℕ, (∀ d ∈ draws, d < L.num_keys) →
        (gatherChecked L.kernel draws).isSome = true) := by
  subst hL
  have hmapne : id_dict.map Prod.snd ≠ [] := by
    simpa using hne
  have hkeys : (NewareParser.mkPrimitiveDictionaryLayer num_features id_dict
      w).num_keys = 1 + NewareParser.maxValues id_dict := rfl
  have hlen : (NewareParser.mkPrimitiveDictionaryLayer num_features id_dict
      w).kernel.length
      = (NewareParser.mkPrimitiveDictionaryLayer num_features id_dict
          w).num_keys := by
    simp [NewareParser.mkPrimitiveDictionaryLayer]
  have hle : ∀ kv ∈ id_dict, kv.2 ≤ NewareParser.maxValues id_dict := by
    intro kv hkv
    exact le_foldr_max _ _ (List.mem_map_of_mem Prod.snd hkv)
  have hlt : ∀ kv ∈ id_dict,
      kv.2 < (NewareParser.mkPrimitiveDictionaryLayer num_features id_dict
        w).num_keys := by
    intro kv hkv
    have := hle kv hkv
    rw [hkeys]
    omega
  refine ⟨hkeys, ?_, hle, hlen, hlt, ?_, ?_, ?_⟩
  · obtain ⟨kv, hkv, hkv2⟩ := List.mem_map.mp (foldr_max_mem _ hmapne)
    exact ⟨kv, hkv, hkv2⟩
  · intro idx hidx
    apply gatherChecked_isSome
    intro i hi
    obtain ⟨kv, hkv, rfl⟩ := hidx i hi
    rw [hlen]
    exact hlt kv hkv
  · apply gatherChecked_isSome
    intro i hi
    rw [hlen]
    exact List.mem_range.mp hi
  · intro draws hdraws
    apply gatherChecked_isSome
    intro i hi
    rw [hlen]
    exact hdraws i hi

end UBD

namespace UBD

/-- A concrete blackbox model instance used to witness `blackbox_call_spec`:
batch 1, two voltages, one current. -/
def bbWitnessModel : Blackbox.DegradationModel :=
  { min_latent := 1 / 10
    n_sample := 4
    coeff_cell_output := 1
    num_feats := 2
    cell_direct := fun indices _ _ => (indices.map (fun _ => [0, 0]), none)
    cell_direct_num_keys := 1
    cell_direct_sample_epsilon := 1 / 20
    cell_latent_flags := [[1]]
    cc_capacity := fun _ _ => [[5], [6]]
    cv_capacity := fun _ _ => [[7]]
    q_loss_fn := fun _ _ _ _ => 0 }

/-- Concrete parameters for the `blackbox_call_spec` witness. -/
def bbWitnessParams : Blackbox.CallParams :=
  { cycle := [[0]]
    constant_current := [[1]]
    end_current_prev := [[1]]
    end_voltage_prev := [[3]]
    end_voltage := [[4]]
    indices := [0]
    voltage_tensor := [[3, 4]]
    current_tensor := [[2]]
    svit_grid := [[0]]
    count_matrix := [[1]] }

/-- C1 witness: concrete evaluation of the blackbox `call` in training
mode on a batch of one. -/
theorem blackbox_call_spec_witness :
    ((bbWitnessModel.call bbWitnessParams true).map Prod.fst
      = if true then
          [Blackbox.Key.predICC, .predICV, .lossQ, .lossCell]
        else [Blackbox.Key.predICC, .predICV])
    ∧ (bbWitnessModel.call bbWitnessParams true).lookup Blackbox.Key.predICC
      = some (.mat (reshapeNeg1
          ((bbWitnessParams.voltage_tensor.headD []).length)
          (bbWitnessModel.cc_capacity
            (bbWitnessModel.callInner bbWitnessParams true) true)))
    ∧ (bbWitnessModel.call bbWitnessParams true).lookup Blackbox.Key.predICV
      = some (.mat (reshapeNeg1
          ((bbWitnessParams.current_tensor.headD []).length)
          (bbWitnessModel.cv_capacity
            (bbWitnessModel.callInner bbWitnessParams true) true)))
    ∧ (reshapeNeg1 ((bbWitnessParams.voltage_tensor.headD []).length)
        (bbWitnessModel.cc_capacity
          (bbWitnessModel.callInner bbWitnessParams true) true)).length
      = bbWitnessParams.cycle.length
    ∧ (∀ r ∈ reshapeNeg1 ((bbWitnessParams.voltage_tensor.headD []).length)
        (bbWitnessModel.cc_capacity
          (bbWitnessModel.callInner bbWitnessParams true) true),
        r.length = (bbWitnessParams.voltage_tensor.headD []).length)
    ∧ (reshapeNeg1 ((bbWitnessParams.current_tensor.headD []).length)
        (bbWitnessModel.cv_capacity
          (bbWitnessModel.callInner bbWitnessParams true) true)).length
      = bbWitnessParams.cycle.length
    ∧ (∀ r ∈ reshapeNeg1 ((bbWitnessParams.current_tensor.headD []).length)
        (bbWitnessModel.cv_capacity
          (bbWitnessModel.callInner bbWitnessParams true) true),
        r.length = (bbWitnessParams.current_tensor.headD []).length)
    ∧ (true = true →
        (bbWitnessModel.call bbWitnessParams true).lookup Blackbox.Key.lossQ
          = some (.scalar (bbWitnessModel.q_loss_fn bbWitnessParams.svit_grid
              bbWitnessParams.cycle.length bbWitnessParams.count_matrix
              bbWitnessModel.n_sample))
        ∧ (bbWitnessModel.call bbWitnessParams true).lookup Blackbox.Key.lossCell
          = some (.scalar ((bbWitnessModel.cell_from_indices
              (List.range bbWitnessModel.cell_direct_num_keys) true false
              []).2.1))) :=
  blackbox_call_spec bbWitnessModel bbWitnessParams true (by decide) (by decide)
    (by decide) (by decide)

/-- C10 witness: the layer built over the dictionary
`[(7, 0), (3, 2)]` has `num_keys = 3` and all gathers in bounds. -/
theorem primitive_dictionary_bounds_witness :
    (NewareParser.mkPrimitiveDictionaryLayer 2 [(7, 0), (3, 2)]
        (fun _ _ => 0)).num_keys
      = 1 + NewareParser.maxValues [(7, 0), (3, 2)]
    ∧ (∃ kv ∈ [(7, 0), (3, 2)], kv.2 = NewareParser.maxValues [(7, 0), (3, 2)])
    ∧ (∀ kv ∈ [(7, 0), (3, 2)], kv.2 ≤ NewareParser.maxValues [(7, 0), (3, 2)])
    ∧ (NewareParser.mkPrimitiveDictionaryLayer 2 [(7, 0), (3, 2)]
        (fun _ _ => 0)).kernel.length
      = (NewareParser.mkPrimitiveDictionaryLayer 2 [(7, 0), (3, 2)]
          (fun _ _ => 0)).num_keys
    ∧ (∀ kv ∈ [(7, 0), (3, 2)],
        kv.2 < (NewareParser.mkPrimitiveDictionaryLayer 2 [(7, 0), (3, 2)]
          (fun _ _ => 0)).num_keys)
    ∧ (∀ idx : List ℕ, (∀ i ∈ idx, ∃ kv ∈ [(7, 0), (3, 2)], i = kv.2) →
        (gatherChecked (NewareParser.mkPrimitiveDictionaryLayer 2
          [(7, 0), (3, 2)] (fun _ _ => 0)).kernel idx).isSome = true)
    ∧ (gatherChecked (NewareParser.mkPrimitiveDictionaryLayer 2
        [(7, 0), (3, 2)] (fun _ _ => 0)).kernel
        (List.range (NewareParser.mkPrimitiveDictionaryLayer 2
          [(7, 0), (3, 2)] (fun _ _ => 0)).num_keys)).isSome = true
    ∧ (∀ draws : List ℕ,
        (∀ d ∈ draws, d < (NewareParser.mkPrimitiveDictionaryLayer 2
          [(7, 0), (3, 2)] (fun _ _ => 0)).num_keys) →
        (gatherChecked (NewareParser.mkPrimitiveDictionaryLayer 2
          [(7, 0), (3, 2)] (fun _ _ => 0)).kernel draws).isSome = true) :=
  primitive_dictionary_bounds 2 [(7, 0), (3, 2)] (fun _ _ => 0)
    (NewareParser.mkPrimitiveDictionaryLayer 2 [(7, 0), (3, 2)] (fun _ _ => 0))
    rfl (by decide)

end UBD
